import Mathlib

/-!
The search-api gateway: its request-to-query translation layer.

A shallow embedding of `search-api/main.go`: the two gin handlers
`createDocumentsEndpoint` and `searchEndpoint`, together with the pieces of
the Go standard library (`strconv.Atoi`) whose result decides the control
flow of `searchEndpoint`.

Collaborators that live outside the repository (the elastic client, the
shortid generator, the wall clock, `encoding/json`) are fields of `Env`.
A handler run is a pure function returning the calls it issued on the
search engine client, what it logged, the response it wrote and whether it
returned or panicked.
-/

namespace SearchApi

/-! ## Constants and data model (main.go, lines 18-51) -/

def elasticIndexName : String := "documents"

def elasticTypeName : String := "document"

/-- A `time.Time` value, kept as the number of nanoseconds since the zero instant. -/
structure Timestamp where
  nanos : Int
  deriving DecidableEq, Repr

/-- The zero value of `time.Time`. -/
def Timestamp.zero : Timestamp := ⟨0⟩

/-- A Go `error` value that is not nil, carried by its message. -/
structure GoError where
  msg : String
  deriving DecidableEq, Repr

structure Document where
  ID : String
  Title : String
  CreatedAt : Timestamp
  Content : String
  deriving DecidableEq, Repr

structure DocumentRequest where
  Title : String
  Content : String
  deriving DecidableEq, Repr

structure DocumentResponse where
  Title : String
  CreatedAt : Timestamp
  Content : String
  deriving DecidableEq, Repr

/-- The zero value of `DocumentResponse`, what `var doc DocumentResponse` declares. -/
def DocumentResponse.zero : DocumentResponse := ⟨"", Timestamp.zero, ""⟩

structure SearchResponse where
  Time : String
  Hits : String
  Documents : List DocumentResponse
  deriving DecidableEq, Repr

/-! ## strconv.Atoi (Go standard library, 64-bit `int`) -/

def intSize : Nat := 64

/-- The two sentinel errors of package strconv. -/
inductive NumError where
  | ErrSyntax
  | ErrRange
  deriving DecidableEq, Repr

/-- UTF-8 encoding of one code point; a Go string is the byte sequence. -/
def utf8Bytes (c : Char) : List Nat :=
  let n := c.toNat
  if n < 0x80 then [n]
  else if n < 0x800 then [0xC0 + n / 64, 0x80 + n % 64]
  else if n < 0x10000 then [0xE0 + n / 4096, 0x80 + (n / 64) % 64, 0x80 + n % 64]
  else [0xF0 + n / 262144, 0x80 + (n / 4096) % 64, 0x80 + (n / 64) % 64, 0x80 + n % 64]

/-- The bytes of a Go string. -/
def goBytes (s : String) : List Nat := s.data.flatMap utf8Bytes

/-- The digit loop of the fast path of `Atoi`: `ch -= '0'` in byte arithmetic,
a syntax error when `ch > 9`, else `n = n*10 + int(ch)`. -/
def atoiFastLoop : List Nat → Int → Option Int
  | [], n => some n
  | ch :: rest, n =>
    let d := (ch + 256 - 48) % 256
    if d > 9 then none else atoiFastLoop rest (n * 10 + d)

/-- The `lower` helper of strconv: `c | ('x' - 'X')`. -/
def lower (c : Nat) : Nat := c ||| 0x20

/-- The digit loop of `ParseUint(s, 10, 0)` on 64-bit words: the running value,
or the error together with the value returned alongside it. -/
def parseUintLoop : List Nat → Nat → Nat × Option NumError
  | [], n => (n, none)
  | c :: rest, n =>
    let cutoff := (2 ^ 64 - 1) / 10 + 1
    let maxVal := 2 ^ intSize - 1
    if 48 ≤ c ∧ c ≤ 57 then
      let d := c - 48
      if n ≥ cutoff then (maxVal, some NumError.ErrRange)
      else
        let n10 := (n * 10) % 2 ^ 64
        let n1 := (n10 + d) % 2 ^ 64
        if n1 < n10 ∨ n1 > maxVal then (maxVal, some NumError.ErrRange)
        else parseUintLoop rest n1
    else if 97 ≤ lower c ∧ lower c ≤ 122 then
      -- d = lower(c) - 'a' + 10 is at least 10 = base
      (0, some NumError.ErrSyntax)
    else (0, some NumError.ErrSyntax)

/-- Go's `strconv.ParseUint(s, 10, 0)`. -/
def ParseUint (s : List Nat) : Nat × Option NumError :=
  if s = [] then (0, some NumError.ErrSyntax) else parseUintLoop s 0

/-- Go's `strconv.ParseInt(s, 10, 0)`. -/
def ParseInt (s : List Nat) : Int × Option NumError :=
  match s with
  | [] => (0, some NumError.ErrSyntax)
  | c0 :: tl =>
    let neg := decide (c0 = 45)
    let body := if c0 = 43 ∨ c0 = 45 then tl else s
    match ParseUint body with
    | (_, some NumError.ErrSyntax) => (0, some NumError.ErrSyntax)
    | (un, _) =>
      let cutoff : Nat := 2 ^ (intSize - 1)
      if !neg ∧ un ≥ cutoff then ((cutoff : Int) - 1, some NumError.ErrRange)
      else if neg ∧ un > cutoff then (-(cutoff : Int), some NumError.ErrRange)
      else if neg then (-(un : Int), none) else ((un : Int), none)

/-- Go's `strconv.Atoi`: the value returned and the error (`none` is a nil error). -/
def Atoi (str : String) : Int × Option NumError :=
  let s := goBytes str
  let sLen := s.length
  if 0 < sLen ∧ sLen < 19 then
    -- fast path for small integers that fit the int type
    match s with
    | [] => (0, some NumError.ErrSyntax)
    | c0 :: tl =>
      let digits := if c0 = 45 ∨ c0 = 43 then tl else s
      if (c0 = 45 ∨ c0 = 43) ∧ digits.length < 1 then (0, some NumError.ErrSyntax)
      else
        match atoiFastLoop digits 0 with
        | none => (0, some NumError.ErrSyntax)
        | some n => if c0 = 45 then (-n, none) else (n, none)
  else
    -- slow path for invalid or big integers
    ParseInt s

/-! ## The gin request context -/

/-- What the handlers read from `*gin.Context`: the URL query as (key, value)
pairs in request order, and the outcome of `c.BindJSON(&docs)` (`none` when
binding reports an error). -/
structure Context where
  queryValues : List (String × String)
  boundJSON : Option (List DocumentRequest)
  deriving DecidableEq, Repr

/-- The method `c.Query(key)`: the first value of the key, or the empty string. -/
def Context.Query (c : Context) (key : String) : String :=
  (c.queryValues.lookup key).getD ""

/-! ## The elastic client (github.com/olivere/elastic), as far as the handlers use it -/

structure MultiMatchQuery where
  text : String
  fields : List String
  fuzziness : String
  minimumShouldMatch : String
  deriving DecidableEq, Repr

def NewMultiMatchQuery (text : String) (fields : List String) : MultiMatchQuery :=
  { text := text, fields := fields, fuzziness := "", minimumShouldMatch := "" }

def MultiMatchQuery.Fuzziness (q : MultiMatchQuery) (fuzziness : String) : MultiMatchQuery :=
  { q with fuzziness := fuzziness }

def MultiMatchQuery.MinimumShouldMatch (q : MultiMatchQuery) (m : String) : MultiMatchQuery :=
  { q with minimumShouldMatch := m }

/-- The state of a `*elastic.SearchService` builder; `offset` and `size` are the
`from` and `size` of its search source, both -1 until set. -/
structure SearchService where
  index : List String
  query : Option MultiMatchQuery
  offset : Int
  size : Int
  deriving DecidableEq, Repr

/-- The builder returned by `elasticClient.Search()`. -/
def Search : SearchService :=
  { index := [], query := none, offset := -1, size := -1 }

def SearchService.Index (s : SearchService) (name : String) : SearchService :=
  { s with index := s.index ++ [name] }

def SearchService.Query (s : SearchService) (q : MultiMatchQuery) : SearchService :=
  { s with query := some q }

def SearchService.From (s : SearchService) (n : Int) : SearchService :=
  { s with offset := n }

def SearchService.Size (s : SearchService) (n : Int) : SearchService :=
  { s with size := n }

/-- The bytes of a `json.RawMessage`. -/
abbrev RawMessage := String

/-- A `elastic.SearchHit`; `Source` is a pointer and may be nil. -/
structure SearchHit where
  Id : String
  Source : Option RawMessage
  deriving DecidableEq, Repr

/-- A `elastic.SearchHits`; `Hits` is a slice of pointers. -/
structure SearchHits where
  TotalHits : Int
  Hits : List (Option SearchHit)
  deriving DecidableEq, Repr

/-- A `elastic.SearchResult`; `Hits` is a pointer and may be nil. -/
structure SearchResult where
  TookInMillis : Int
  Hits : Option SearchHits
  deriving DecidableEq, Repr

/-- A `elastic.BulkIndexRequest`. -/
structure BulkIndexRequest where
  id : String
  doc : Option Document
  deriving DecidableEq, Repr

def NewBulkIndexRequest : BulkIndexRequest := { id := "", doc := none }

def BulkIndexRequest.Id (r : BulkIndexRequest) (id : String) : BulkIndexRequest :=
  { r with id := id }

def BulkIndexRequest.Doc (r : BulkIndexRequest) (doc : Document) : BulkIndexRequest :=
  { r with doc := some doc }

/-- The state of a `*elastic.BulkService` builder. -/
structure BulkService where
  index : String
  typ : String
  requests : List BulkIndexRequest
  deriving DecidableEq, Repr

/-- The builder returned by `elasticClient.Bulk()`. -/
def Bulk : BulkService := { index := "", typ := "", requests := [] }

def BulkService.Index (b : BulkService) (name : String) : BulkService :=
  { b with index := name }

/-- The `Type` setter of the bulk service. -/
def BulkService.Typ (b : BulkService) (name : String) : BulkService :=
  { b with typ := name }

def BulkService.Add (b : BulkService) (r : BulkIndexRequest) : BulkService :=
  { b with requests := b.requests ++ [r] }

/-- One per-document result inside a bulk response. -/
structure BulkResponseItem where
  Id : String
  Status : Int
  Error : Option String
  deriving DecidableEq, Repr

/-- A `elastic.BulkResponse`. -/
structure BulkResponse where
  Took : Int
  Errors : Bool
  Items : List BulkResponseItem
  deriving DecidableEq, Repr

/-! ## Collaborators outside the repository -/

/-- Modelled from the spec: the identifier generator behind
`shortid.MustGenerate`, a package that is not part of the sources. The
specification describes it as producing, without any client input, "a new
identifier guaranteed unique within the index's identifier space", every
document id being "non-empty" and "globally unique". `next k` is the
identifier handed out by the k-th call in the process. -/
structure IdGenerator where
  next : Nat → String
  nonempty : ∀ k, next k ≠ ""
  unique : ∀ j k, next j = next k → j = k

/-- The behaviour of everything the handlers call but do not define.
`MustGenerate.next k` is the identifier returned by the k-th call of
`shortid.MustGenerate` in the process and `Now k` the k-th reading of
`time.Now().UTC()`. `bulkDo` and `searchDo` are the `Do` methods of the two
elastic services, returning Go's (pointer, error) pair. `Unmarshal raw dst`
is `json.Unmarshal(raw, &dst)`: the destination afterwards and the error. -/
structure Env where
  MustGenerate : IdGenerator
  Now : Nat → Timestamp
  bulkDo : BulkService → Option BulkResponse × Option GoError
  searchDo : SearchService → Option SearchResult × Option GoError
  Unmarshal : RawMessage → DocumentResponse → DocumentResponse × Option GoError

/-- How many identifiers and clock readings the process has consumed so far. -/
structure World where
  idCalls : Nat
  clockReads : Nat
  deriving DecidableEq, Repr

/-! ## Handler runs -/

/-- A call issued on the search engine client. -/
inductive EngineCall where
  | bulkDo (b : BulkService)
  | searchDo (s : SearchService)
  deriving DecidableEq, Repr

/-- What a handler writes as the response body: nothing (`c.Status`), the object
`gin.H{"error": msg}`, or a `SearchResponse`. -/
inductive Body where
  | empty
  | error (msg : String)
  | search (res : SearchResponse)
  deriving DecidableEq, Repr

structure Response where
  code : Nat
  body : Body
  deriving DecidableEq, Repr

/-- How a handler run ends. -/
inductive Ending where
  | returned
  | panicked (msg : String)
  deriving DecidableEq, Repr

structure Run where
  calls : List EngineCall
  logged : List String
  response : Option Response
  ended : Ending
  deriving DecidableEq, Repr

/-- The helper `errorResponse(c, code, err)`: the status and `gin.H{"error": err}`. -/
def errorResponse (code : Nat) (err : String) : Response :=
  { code := code, body := Body.error err }

def StatusOK : Nat := 200

def StatusBadRequest : Nat := 400

def StatusInternalServerError : Nat := 500

/-! ## createDocumentsEndpoint (main.go, lines 59-87) -/

/-- The `for _, d := range docs` loop (lines 71-79). -/
def stageDocs (env : Env) : List DocumentRequest → World → BulkService → BulkService × World
  | [], w, bulk => (bulk, w)
  | d :: ds, w, bulk =>
    let doc : Document :=
      { ID := env.MustGenerate.next w.idCalls
        Title := d.Title
        CreatedAt := env.Now w.clockReads
        Content := d.Content }
    stageDocs env ds { idCalls := w.idCalls + 1, clockReads := w.clockReads + 1 }
      (bulk.Add ((NewBulkIndexRequest.Id doc.ID).Doc doc))

def createDocumentsEndpoint (env : Env) (w : World) (c : Context) : Run × World :=
  match c.boundJSON with
  | none =>
    ({ calls := [], logged := []
       response := some (errorResponse StatusBadRequest "Malformed request body")
       ended := Ending.returned }, w)
  | some docs =>
    let bulk := (Bulk.Index elasticIndexName).Typ elasticTypeName
    let staged := stageDocs env docs w bulk
    match (env.bulkDo staged.1).2 with
    | some err =>
      ({ calls := [EngineCall.bulkDo staged.1], logged := [err.msg]
         response := some (errorResponse StatusInternalServerError "Failed to create documents")
         ended := Ending.returned }, staged.2)
    | none =>
      ({ calls := [EngineCall.bulkDo staged.1], logged := []
         response := some { code := StatusOK, body := Body.empty }
         ended := Ending.returned }, staged.2)

/-! ## searchEndpoint (main.go, lines 89-134) -/

/-- Lines 97-105: `skip := 0`, `take := 10`, each overwritten by the value
`strconv.Atoi` returns when the error it returns is not nil. -/
def pagination (c : Context) : Int × Int :=
  let skip : Int := 0
  let take : Int := 10
  let skip := match Atoi (c.Query "skip") with
    | (i, some _) => i
    | (_, none) => skip
  let take := match Atoi (c.Query "take") with
    | (i, some _) => i
    | (_, none) => take
  (skip, take)

/-- Lines 107-113: the search service on which `Do` is called. -/
def searchService (c : Context) : SearchService :=
  let query := c.Query "query"
  let esQuery := ((NewMultiMatchQuery query ["title", "content"]).Fuzziness "2").MinimumShouldMatch "2"
  (((Search.Index elasticIndexName).Query esQuery).From (pagination c).1).Size (pagination c).2

/-- The `for _, hit := range result.Hits.Hits` loop (lines 126-130); `none` when
a nil pointer is dereferenced (`hit.Source` of a nil hit, `*hit.Source` of a
nil source). The error of `json.Unmarshal` is discarded. -/
def mapHits (env : Env) : List (Option SearchHit) → List DocumentResponse → Option (List DocumentResponse)
  | [], docs => some docs
  | none :: _, _ => none
  | some hit :: rest, docs =>
    match hit.Source with
    | none => none
    | some raw =>
      let doc := (env.Unmarshal raw DocumentResponse.zero).1
      mapHits env rest (docs ++ [doc])

def nilDereference : String := "runtime error: invalid memory address or nil pointer dereference"

def searchEndpoint (env : Env) (c : Context) : Run :=
  let query := c.Query "query"
  if query = "" then
    { calls := [], logged := []
      response := some (errorResponse StatusBadRequest "Query not specified")
      ended := Ending.returned }
  else
    let svc := searchService c
    match env.searchDo svc with
    | (_, some err) =>
      -- log.Panic(err) prints and panics; lines 117-118 are not reached
      { calls := [EngineCall.searchDo svc], logged := [err.msg]
        response := none, ended := Ending.panicked err.msg }
    | (none, none) =>
      { calls := [EngineCall.searchDo svc], logged := []
        response := none, ended := Ending.panicked nilDereference }
    | (some result, none) =>
      match result.Hits with
      | none =>
        { calls := [EngineCall.searchDo svc], logged := []
          response := none, ended := Ending.panicked nilDereference }
      | some hits =>
        match mapHits env hits.Hits [] with
        | none =>
          { calls := [EngineCall.searchDo svc], logged := []
            response := none, ended := Ending.panicked nilDereference }
        | some docs =>
          { calls := [EngineCall.searchDo svc], logged := []
            response := some
              { code := StatusOK
                body := Body.search
                  { Time := toString result.TookInMillis
                    Hits := toString hits.TotalHits
                    Documents := docs } }
            ended := Ending.returned }

/-! ## Auxiliary definitions used by the statements -/

/-- The index requests the staging loop appends, listed directly. -/
def stagedEntries (env : Env) : World → List DocumentRequest → List BulkIndexRequest
  | _, [] => []
  | w, d :: ds =>
    { id := env.MustGenerate.next w.idCalls
      doc := some
        { ID := env.MustGenerate.next w.idCalls
          Title := d.Title
          CreatedAt := env.Now w.clockReads
          Content := d.Content } } ::
      stagedEntries env { idCalls := w.idCalls + 1, clockReads := w.clockReads + 1 } ds

/-- The documents a run handed to the search engine client for indexing. -/
def producedDocuments (r : Run) : List Document :=
  r.calls.flatMap fun call =>
    match call with
    | EngineCall.bulkDo b => b.requests.filterMap BulkIndexRequest.doc
    | EngineCall.searchDo _ => []

/-- The submissions a request carries once bound; none when binding fails. -/
def submissions (c : Context) : List DocumentRequest := c.boundJSON.getD []

/-- The process handling a sequence of ingestion requests one after another,
each call starting from the world the previous one left. -/
def serveDocuments (env : Env) : World → List Context → List Run
  | _, [] => []
  | w, c :: cs =>
    (createDocumentsEndpoint env w c).1 ::
      serveDocuments env (createDocumentsEndpoint env w c).2 cs

/-- The payload of a hit, when neither the hit nor its source is nil. -/
def hitPayload : Option SearchHit → Option RawMessage
  | some hit => hit.Source
  | none => none

/-- The document sequence as the specification words it: a hit whose payload
does not decode without error is left out, the others keep their order. -/
def mappedDocuments (env : Env) (hits : List (Option SearchHit)) : List DocumentResponse :=
  hits.filterMap fun h =>
    match hitPayload h with
    | none => none
    | some raw =>
      match env.Unmarshal raw DocumentResponse.zero with
      | (doc, none) => some doc
      | (_, some _) => none

/-! ## Sample collaborators and requests -/

def payloadTruncated : RawMessage := "\x7b"

def payloadHello : RawMessage := "\x7b\"title\":\"hello\",\"content\":\"world\"\x7d"

def docHello : DocumentResponse := { Title := "hello", CreatedAt := Timestamp.zero, Content := "world" }

/-- A decoder that fills the destination from `payloadHello` and reports an
error on every other input, leaving the destination as it was. -/
def sampleUnmarshal (raw : RawMessage) (dst : DocumentResponse) : DocumentResponse × Option GoError :=
  if raw = payloadHello then ({ dst with Title := "hello", Content := "world" }, none)
  else (dst, some { msg := "unexpected end of JSON input" })

def mixedHits : SearchHits :=
  { TotalHits := 2
    Hits := [some { Id := "h1", Source := some payloadTruncated },
             some { Id := "h2", Source := some payloadHello }] }

/-- The identifiers "a", "aa", "aaa", ... -/
def sampleIds : IdGenerator where
  next := fun k => String.mk (List.replicate (k + 1) 'a')
  nonempty := by
    intro k h
    have hlen := congrArg String.length h
    simp [String.length] at hlen
  unique := by
    intro j k h
    have hlen := congrArg String.length h
    simpa [String.length] using hlen

/-- An engine client that refuses a bulk request without entries, accepts
every other one, and answers every search with `mixedHits`; the identifiers
are "a", "aa", "aaa", ... -/
def sampleEnv : Env where
  MustGenerate := sampleIds
  Now := fun k => { nanos := k }
  bulkDo := fun b =>
    if b.requests = [] then (none, some { msg := "elastic: No bulk actions to commit" })
    else (some { Took := 1, Errors := false, Items := [] }, none)
  searchDo := fun _ => (some { TookInMillis := 3, Hits := some mixedHits }, none)
  Unmarshal := sampleUnmarshal

/-- An engine client that answers every bulk request without an error of the
call, while its bulk response reports that every single entry failed. -/
def partialFailureEnv : Env :=
  { sampleEnv with
    bulkDo := fun b =>
      (some
        { Took := 1
          Errors := true
          Items := b.requests.map fun r =>
            { Id := r.id, Status := 400, Error := some "mapper_parsing_exception" } },
       none) }

def world0 : World := { idCalls := 0, clockReads := 0 }

def searchHelloRequest : Context :=
  { queryValues := [("query", "hello")], boundJSON := none }

def searchPagedRequest : Context :=
  { queryValues := [("query", "hello"), ("skip", "5"), ("take", "20")], boundJSON := none }

def searchNoQueryRequest : Context :=
  { queryValues := [("skip", "3"), ("take", "x")], boundJSON := none }

def emptyBatchRequest : Context :=
  { queryValues := [], boundJSON := some [] }

def twoDocsRequest : Context :=
  { queryValues := [], boundJSON := some [{ Title := "A", Content := "B" }, { Title := "C", Content := "D" }] }

/-! ## searchEndpoint: the query that reaches the engine -/

theorem searchEndpoint_calls (env : Env) (c : Context) (h : c.Query "query" ≠ "") :
    (searchEndpoint env c).calls = [EngineCall.searchDo (searchService c)] := by
  unfold searchEndpoint
  simp only [h, if_false]
  split
  · rfl
  · rfl
  · split
    · rfl
    · split <;> rfl

theorem pagination_of_parsed (c : Context) (s t : Int)
    (hs : Atoi (c.Query "skip") = (s, none)) (ht : Atoi (c.Query "take") = (t, none)) :
    pagination c = (0, 10) := by
  simp [pagination, hs, ht]

theorem pagination_of_failed (c : Context) (s t : Int) (es et : NumError)
    (hs : Atoi (c.Query "skip") = (s, some es)) (ht : Atoi (c.Query "take") = (t, some et)) :
    pagination c = (s, t) := by
  simp [pagination, hs, ht]

theorem Atoi_empty : Atoi "" = (0, some NumError.ErrSyntax) := by decide

theorem searchService_shape (c : Context) :
    searchService c =
      { index := ["documents"]
        query := some
          { text := c.Query "query", fields := ["title", "content"]
            fuzziness := "2", minimumShouldMatch := "2" }
        offset := (pagination c).1
        size := (pagination c).2 } := rfl

/-- C1 (the code at the failing input): with `skip` and `take` absent the
handler issues its query with offset 0 and limit 0; the limit is not 10. -/
theorem searchEndpoint_absent_pagination (env : Env) :
    (searchEndpoint env searchHelloRequest).calls =
      [EngineCall.searchDo
        { index := ["documents"]
          query := some
            { text := "hello", fields := ["title", "content"]
              fuzziness := "2", minimumShouldMatch := "2" }
          offset := 0
          size := 0 }] := by
  rw [searchEndpoint_calls env searchHelloRequest (by decide)]
  decide

/-- C2 (the code at the failing input): with `skip=5` and `take=20`, both of
which parse, the handler issues its query with offset 0 and limit 10. -/
theorem searchEndpoint_parsed_pagination (env : Env) :
    Atoi "5" = (5, none) ∧ Atoi "20" = (20, none) ∧
    (searchEndpoint env searchPagedRequest).calls =
      [EngineCall.searchDo
        { index := ["documents"]
          query := some
            { text := "hello", fields := ["title", "content"]
              fuzziness := "2", minimumShouldMatch := "2" }
          offset := 0
          size := 10 }] := by
  refine ⟨by decide, by decide, ?_⟩
  rw [searchEndpoint_calls env searchPagedRequest (by decide)]
  decide

/-- C3: when the `query` parameter is absent or empty, the handler answers
400 with the error "Query not specified", issues no call on the search engine
client and returns, whatever else the request holds. -/
theorem searchEndpoint_rejects_empty_query (env : Env) (c : Context)
    (h : c.queryValues.lookup "query" = none ∨ c.queryValues.lookup "query" = some "") :
    searchEndpoint env c =
      { calls := []
        logged := []
        response := some { code := 400, body := Body.error "Query not specified" }
        ended := Ending.returned } := by
  have hq : c.Query "query" = "" := by
    unfold Context.Query
    rcases h with h | h <;> simp [h]
  unfold searchEndpoint
  simp [hq, errorResponse, StatusBadRequest]

theorem searchEndpoint_rejects_empty_query_witness :
    (searchNoQueryRequest.queryValues.lookup "query" = none ∨
      searchNoQueryRequest.queryValues.lookup "query" = some "") ∧
    searchEndpoint sampleEnv searchNoQueryRequest =
      { calls := []
        logged := []
        response := some { code := 400, body := Body.error "Query not specified" }
        ended := Ending.returned } :=
  ⟨by decide, searchEndpoint_rejects_empty_query sampleEnv searchNoQueryRequest (by decide)⟩

/-- C4 (the code at the failing input): when the engine query call returns an
error the handler issues that one call, logs the error and panics; it writes
no response and does not return. -/
theorem searchEndpoint_engine_error_panics (env : Env) (r : Option SearchResult) (e : GoError) :
    searchEndpoint { env with searchDo := fun _ => (r, some e) } searchHelloRequest =
      { calls := [EngineCall.searchDo
          { index := ["documents"]
            query := some
              { text := "hello", fields := ["title", "content"]
                fuzziness := "2", minimumShouldMatch := "2" }
            offset := 0
            size := 0 }]
        logged := [e.msg]
        response := none
        ended := Ending.panicked e.msg } := by
  have hq : searchHelloRequest.Query "query" ≠ "" := by decide
  have hs : searchService searchHelloRequest =
      { index := ["documents"]
        query := some
          { text := "hello", fields := ["title", "content"]
            fuzziness := "2", minimumShouldMatch := "2" }
        offset := 0
        size := 0 } := by decide
  unfold searchEndpoint
  simp only [hq, if_false, hs]

/-- C6: for a non-empty query the handler issues exactly one call, a search on
the index `documents` whose query is a multi-match of the supplied text over
the fields `title` and `content` with fuzziness "2" and minimum-should-match
"2", whatever the text and the pagination parameters are. -/
theorem searchEndpoint_query_shape (env : Env) (c : Context) (h : c.Query "query" ≠ "") :
    ∃ skip take : Int,
      (searchEndpoint env c).calls =
        [EngineCall.searchDo
          { index := ["documents"]
            query := some
              { text := c.Query "query", fields := ["title", "content"]
                fuzziness := "2", minimumShouldMatch := "2" }
            offset := skip
            size := take }] :=
  ⟨(pagination c).1, (pagination c).2, by rw [searchEndpoint_calls env c h, searchService_shape]⟩

theorem searchEndpoint_query_shape_witness :
    searchPagedRequest.Query "query" ≠ "" ∧
    ∃ skip take : Int,
      (searchEndpoint sampleEnv searchPagedRequest).calls =
        [EngineCall.searchDo
          { index := ["documents"]
            query := some
              { text := searchPagedRequest.Query "query", fields := ["title", "content"]
                fuzziness := "2", minimumShouldMatch := "2" }
            offset := skip
            size := take }] :=
  ⟨by decide, searchEndpoint_query_shape sampleEnv searchPagedRequest (by decide)⟩

/-! ## searchEndpoint: mapping the hits -/

theorem mapHits_eq (env : Env) :
    ∀ (hs : List (Option SearchHit)) (raws : List RawMessage) (acc : List DocumentResponse),
      hs.map hitPayload = raws.map some →
      mapHits env hs acc =
        some (acc ++ raws.map fun raw => (env.Unmarshal raw DocumentResponse.zero).1) := by
  intro hs
  induction hs with
  | nil =>
    intro raws acc h
    cases raws with
    | nil => simp [mapHits]
    | cons r rs => simp at h
  | cons hd tl ih =>
    intro raws acc h
    cases raws with
    | nil => simp at h
    | cons r rs =>
      simp only [List.map_cons, List.cons.injEq] at h
      obtain ⟨h1, h2⟩ := h
      cases hd with
      | none => simp [hitPayload] at h1
      | some hit =>
        simp only [hitPayload] at h1
        simp only [mapHits, h1]
        rw [ih rs _ h2]
        simp

/-- C5 (as stated, refuted): the engine returns two hits, the first with a
payload the decoder rejects; the response is 200 and its documents still
hold an entry for that hit (the zero document), where the specification
would list the second hit only. -/
theorem searchEndpoint_keeps_unmappable_hit :
    (sampleEnv.Unmarshal payloadTruncated DocumentResponse.zero).2 ≠ none ∧
    (searchEndpoint sampleEnv searchHelloRequest).response =
      some { code := 200
             body := Body.search
               { Time := "3", Hits := "2", Documents := [DocumentResponse.zero, docHello] } } ∧
    mappedDocuments sampleEnv mixedHits.Hits = [docHello] := by
  decide

/-- C5 (amended): for a successful engine result whose hits all carry a
payload, the handler answers 200 with exactly one document per hit, in the
order of the engine: the i-th document is whatever decoding the i-th payload
into a zero document left behind, whether or not the decoder reported an
error. -/
theorem searchEndpoint_maps_every_hit (env : Env) (c : Context) (result : SearchResult)
    (hits : SearchHits) (raws : List RawMessage)
    (hq : c.Query "query" ≠ "")
    (hdo : env.searchDo (searchService c) = (some result, none))
    (hh : result.Hits = some hits)
    (hp : hits.Hits.map hitPayload = raws.map some) :
    searchEndpoint env c =
      { calls := [EngineCall.searchDo (searchService c)]
        logged := []
        response := some
          { code := 200
            body := Body.search
              { Time := toString result.TookInMillis
                Hits := toString hits.TotalHits
                Documents := raws.map fun raw => (env.Unmarshal raw DocumentResponse.zero).1 } }
        ended := Ending.returned } := by
  unfold searchEndpoint
  simp only [hq, if_false, hdo, hh, mapHits_eq env hits.Hits raws [] hp, List.nil_append,
    StatusOK]

theorem searchEndpoint_maps_every_hit_witness :
    searchHelloRequest.Query "query" ≠ "" ∧
    sampleEnv.searchDo (searchService searchHelloRequest) =
      (some { TookInMillis := 3, Hits := some mixedHits }, none) ∧
    mixedHits.Hits.map hitPayload = [payloadTruncated, payloadHello].map some ∧
    searchEndpoint sampleEnv searchHelloRequest =
      { calls := [EngineCall.searchDo (searchService searchHelloRequest)]
        logged := []
        response := some
          { code := 200
            body := Body.search
              { Time := toString (3 : Int)
                Hits := toString mixedHits.TotalHits
                Documents := [payloadTruncated, payloadHello].map fun raw =>
                  (sampleEnv.Unmarshal raw DocumentResponse.zero).1 } }
        ended := Ending.returned } :=
  ⟨by decide, rfl, by decide,
    searchEndpoint_maps_every_hit sampleEnv searchHelloRequest
      { TookInMillis := 3, Hits := some mixedHits } mixedHits [payloadTruncated, payloadHello]
      (by decide) rfl rfl (by decide)⟩

/-! ## createDocumentsEndpoint -/

theorem stageDocs_eq (env : Env) :
    ∀ (docs : List DocumentRequest) (w : World) (bulk : BulkService),
      stageDocs env docs w bulk =
        ({ bulk with requests := bulk.requests ++ stagedEntries env w docs },
         { idCalls := w.idCalls + docs.length, clockReads := w.clockReads + docs.length }) := by
  intro docs
  induction docs with
  | nil => intro w bulk; simp [stageDocs, stagedEntries]
  | cons d ds ih =>
    intro w bulk
    simp only [stageDocs, stagedEntries, ih, BulkService.Add, BulkIndexRequest.Doc,
      BulkIndexRequest.Id, NewBulkIndexRequest, List.length_cons, List.append_assoc,
      List.singleton_append]
    congr 2 <;> omega

theorem createDocumentsEndpoint_calls (env : Env) (w : World) (qv : List (String × String))
    (docs : List DocumentRequest) :
    (createDocumentsEndpoint env w { queryValues := qv, boundJSON := some docs }).1.calls =
      [EngineCall.bulkDo
        { index := "documents", typ := "document", requests := stagedEntries env w docs }] := by
  unfold createDocumentsEndpoint
  simp only [stageDocs_eq]
  split <;> simp [Bulk, BulkService.Index, BulkService.Typ, elasticIndexName, elasticTypeName]

theorem stagedEntries_aligned (env : Env) :
    ∀ (docs : List DocumentRequest) (w : World),
      List.Forall₂
        (fun (e : BulkIndexRequest) (d : DocumentRequest) =>
          ∃ doc : Document, e.doc = some doc ∧ doc.Title = d.Title ∧ doc.Content = d.Content ∧
            e.id = doc.ID)
        (stagedEntries env w docs) docs := by
  intro docs
  induction docs with
  | nil => intro w; exact List.Forall₂.nil
  | cons d ds ih =>
    intro w
    exact List.Forall₂.cons ⟨_, rfl, rfl, rfl, rfl⟩ (ih _)

theorem stagedEntries_length (env : Env) :
    ∀ (docs : List DocumentRequest) (w : World), (stagedEntries env w docs).length = docs.length := by
  intro docs
  induction docs with
  | nil => intro w; rfl
  | cons d ds ih => intro w; simp [stagedEntries, ih]

theorem stagedEntries_ids (env : Env) :
    ∀ (docs : List DocumentRequest) (w : World),
      ((stagedEntries env w docs).filterMap BulkIndexRequest.doc).map Document.ID =
        (List.range' w.idCalls docs.length).map env.MustGenerate.next := by
  intro docs
  induction docs with
  | nil => intro w; rfl
  | cons d ds ih =>
    intro w
    simp [stagedEntries, List.filterMap_cons, ih, List.range'_succ]

theorem producedDocuments_ids (env : Env) (w : World) (qv : List (String × String))
    (docs : List DocumentRequest) :
    (producedDocuments
        (createDocumentsEndpoint env w { queryValues := qv, boundJSON := some docs }).1).map
        Document.ID =
      (List.range' w.idCalls docs.length).map env.MustGenerate.next := by
  unfold producedDocuments
  rw [createDocumentsEndpoint_calls]
  simp [stagedEntries_ids]

theorem createDocumentsEndpoint_world (env : Env) (w : World) (qv : List (String × String))
    (docs : List DocumentRequest) :
    (createDocumentsEndpoint env w { queryValues := qv, boundJSON := some docs }).2 =
      { idCalls := w.idCalls + docs.length, clockReads := w.clockReads + docs.length } := by
  unfold createDocumentsEndpoint
  simp only [stageDocs_eq]
  split <;> rfl

/-- C7 (as stated, refuted): on a well-formed empty sequence the handler does
call the search engine client, with a bulk request that holds no entry; with
a client that refuses such a request the answer is 500, not 200. -/
theorem createDocumentsEndpoint_empty_batch_calls_engine :
    (createDocumentsEndpoint sampleEnv world0 emptyBatchRequest).1 =
      { calls := [EngineCall.bulkDo { index := "documents", typ := "document", requests := [] }]
        logged := ["elastic: No bulk actions to commit"]
        response := some { code := 500, body := Body.error "Failed to create documents" }
        ended := Ending.returned } ∧
    (createDocumentsEndpoint sampleEnv world0 emptyBatchRequest).1.calls ≠ [] := by
  decide

/-- C7 (amended): on a well-formed empty sequence the handler stages nothing,
consumes no identifier and issues exactly one bulk-write call, carrying zero
entries; it answers 200 with an empty body when that call returns no error
and 500 "Failed to create documents" when it returns one. -/
theorem createDocumentsEndpoint_empty_batch (env : Env) (w : World) (qv : List (String × String)) :
    (createDocumentsEndpoint env w { queryValues := qv, boundJSON := some [] }).1.calls =
      [EngineCall.bulkDo { index := "documents", typ := "document", requests := [] }] ∧
    (createDocumentsEndpoint env w { queryValues := qv, boundJSON := some [] }).1.response =
      (match (env.bulkDo { index := "documents", typ := "document", requests := [] }).2 with
        | none => some { code := 200, body := Body.empty }
        | some _ => some { code := 500, body := Body.error "Failed to create documents" }) ∧
    (createDocumentsEndpoint env w { queryValues := qv, boundJSON := some [] }).2 = w := by
  refine ⟨createDocumentsEndpoint_calls env w qv [], ?_, ?_⟩
  · unfold createDocumentsEndpoint
    simp only [stageDocs, Bulk, BulkService.Index, BulkService.Typ, elasticIndexName,
      elasticTypeName]
    split <;> simp_all [errorResponse, StatusInternalServerError, StatusOK]
  · rw [createDocumentsEndpoint_world]
    rfl

/-- C8: for a well-formed sequence of N submissions the handler issues exactly
one call, a bulk write on the index `documents` that carries exactly N index
entries in submission order; the i-th entry holds a document with the title
and content of the i-th submission, and the id of the entry is the `ID` of
that document. -/
theorem createDocumentsEndpoint_stages_all (env : Env) (w : World) (qv : List (String × String))
    (docs : List DocumentRequest) :
    ∃ entries : List BulkIndexRequest,
      (createDocumentsEndpoint env w { queryValues := qv, boundJSON := some docs }).1.calls =
        [EngineCall.bulkDo { index := "documents", typ := "document", requests := entries }] ∧
      entries.length = docs.length ∧
      List.Forall₂
        (fun (e : BulkIndexRequest) (d : DocumentRequest) =>
          ∃ doc : Document, e.doc = some doc ∧ doc.Title = d.Title ∧ doc.Content = d.Content ∧
            e.id = doc.ID)
        entries docs :=
  ⟨stagedEntries env w docs, createDocumentsEndpoint_calls env w qv docs,
    stagedEntries_length env docs w, stagedEntries_aligned env docs w⟩

theorem stageDocs_bulkDo_irrelevant (env : Env)
    (f : BulkService → Option BulkResponse × Option GoError) :
    ∀ (docs : List DocumentRequest) (w : World) (bulk : BulkService),
      stageDocs { env with bulkDo := f } docs w bulk = stageDocs env docs w bulk := by
  intro docs
  induction docs with
  | nil => intro w bulk; rfl
  | cons d ds ih => intro w bulk; simp only [stageDocs, ih]

/-- C9 (amended): for a well-formed request the response is 500 with the error
"Failed to create documents" when the bulk-write call returns an error and
200 with an empty body otherwise, and the handler returns. Only the error of
the call is looked at: replacing the bulk response the engine hands back by
any other one, for instance one that reports failed entries, leaves the run
unchanged. -/
theorem createDocumentsEndpoint_outcome (env : Env) (w : World) (qv : List (String × String))
    (docs : List DocumentRequest) (g : Option BulkResponse → Option BulkResponse) :
    (createDocumentsEndpoint env w { queryValues := qv, boundJSON := some docs }).1.response =
      (match (env.bulkDo
          (stageDocs env docs w { index := "documents", typ := "document", requests := [] }).1).2 with
        | some _ => some { code := 500, body := Body.error "Failed to create documents" }
        | none => some { code := 200, body := Body.empty }) ∧
    (createDocumentsEndpoint env w { queryValues := qv, boundJSON := some docs }).1.ended =
      Ending.returned ∧
    createDocumentsEndpoint { env with bulkDo := fun b => (g (env.bulkDo b).1, (env.bulkDo b).2) }
        w { queryValues := qv, boundJSON := some docs } =
      createDocumentsEndpoint env w { queryValues := qv, boundJSON := some docs } := by
  refine ⟨?_, ?_, ?_⟩
  · unfold createDocumentsEndpoint
    simp only [Bulk, BulkService.Index, BulkService.Typ, elasticIndexName, elasticTypeName]
    split <;> simp_all [errorResponse, StatusInternalServerError, StatusOK]
  · unfold createDocumentsEndpoint
    simp only
    split <;> rfl
  · unfold createDocumentsEndpoint
    simp only [stageDocs_bulkDo_irrelevant]

/-- C9 (as stated, refuted): the engine reports in its bulk response that every
entry failed, the call itself returns no error, and the handler answers 200
with an empty body, not 500. -/
theorem createDocumentsEndpoint_partial_failure_ok :
    partialFailureEnv.bulkDo
        (stageDocs partialFailureEnv
          [{ Title := "A", Content := "B" }, { Title := "C", Content := "D" }] world0
          { index := "documents", typ := "document", requests := [] }).1 =
      (some
        { Took := 1
          Errors := true
          Items :=
            [{ Id := "a", Status := 400, Error := some "mapper_parsing_exception" },
             { Id := "aa", Status := 400, Error := some "mapper_parsing_exception" }] },
       none) ∧
    (createDocumentsEndpoint partialFailureEnv world0 twoDocsRequest).1.response =
      some { code := 200, body := Body.empty } := by
  decide

/-! ## Identifiers across the calls of a process -/

theorem producedDocuments_ids_any (env : Env) (w : World) (c : Context) :
    (producedDocuments (createDocumentsEndpoint env w c).1).map Document.ID =
      (List.range' w.idCalls (submissions c).length).map env.MustGenerate.next := by
  obtain ⟨qv, b⟩ := c
  cases b with
  | none => simp [createDocumentsEndpoint, producedDocuments, submissions]
  | some docs => simpa [submissions] using producedDocuments_ids env w qv docs

theorem createDocumentsEndpoint_world_any (env : Env) (w : World) (c : Context) :
    (createDocumentsEndpoint env w c).2 =
      { idCalls := w.idCalls + (submissions c).length
        clockReads := w.clockReads + (submissions c).length } := by
  obtain ⟨qv, b⟩ := c
  cases b with
  | none => simp [createDocumentsEndpoint, submissions]
  | some docs => simpa [submissions] using createDocumentsEndpoint_world env w qv docs

theorem serveDocuments_ids (env : Env) :
    ∀ (reqs : List Context) (w : World),
      ((serveDocuments env w reqs).flatMap producedDocuments).map Document.ID =
        (List.range' w.idCalls (reqs.map fun c => (submissions c).length).sum).map
          env.MustGenerate.next := by
  intro reqs
  induction reqs with
  | nil => intro w; simp [serveDocuments]
  | cons c cs ih =>
    intro w
    simp only [serveDocuments, List.flatMap_cons, List.map_append, List.map_cons, List.sum_cons,
      producedDocuments_ids_any, ih, createDocumentsEndpoint_world_any]
    rw [← List.map_append, List.range'_append_1, Nat.add_comm]

theorem serveDocuments_counts (env : Env) :
    ∀ (reqs : List Context) (w : World),
      ((serveDocuments env w reqs).map fun r => (producedDocuments r).length) =
        reqs.map fun c => (submissions c).length := by
  intro reqs
  induction reqs with
  | nil => intro w; simp [serveDocuments]
  | cons c cs ih =>
    intro w
    have hlen := congrArg List.length (producedDocuments_ids_any env w c)
    simp only [List.length_map, List.length_range'] at hlen
    simp only [serveDocuments, List.map_cons, ih, hlen]

/-- C10: whatever sequence of ingestion requests the process handles, each
call produces exactly one document per accepted submission; the `ID`s of all
documents of all calls, in order, are the results of consecutive calls of the
identifier generator, so they are fixed by how many submissions came and not
by any title or content; every one of them is non-empty; and no two of them,
in the same batch or in different calls, are equal. -/
theorem serveDocuments_ids_unique (env : Env) (w : World) (reqs : List Context) :
    ((serveDocuments env w reqs).map fun r => (producedDocuments r).length) =
      (reqs.map fun c => (submissions c).length) ∧
    ((serveDocuments env w reqs).flatMap producedDocuments).map Document.ID =
      (List.range' w.idCalls (reqs.map fun c => (submissions c).length).sum).map
        env.MustGenerate.next ∧
    (∀ d ∈ (serveDocuments env w reqs).flatMap producedDocuments, d.ID ≠ "") ∧
    (((serveDocuments env w reqs).flatMap producedDocuments).map Document.ID).Nodup := by
  refine ⟨serveDocuments_counts env reqs w, serveDocuments_ids env reqs w, ?_, ?_⟩
  · intro d hd
    have hmem : d.ID ∈ ((serveDocuments env w reqs).flatMap producedDocuments).map Document.ID :=
      List.mem_map_of_mem _ hd
    rw [serveDocuments_ids, List.mem_map] at hmem
    obtain ⟨k, _, hk⟩ := hmem
    rw [← hk]
    exact env.MustGenerate.nonempty k
  · rw [serveDocuments_ids]
    exact List.Nodup.map (fun j k h => env.MustGenerate.unique j k h) (List.nodup_range' _ _)

end SearchApi
